import Mathlib

/-!
Shallow embedding of `src/display_list.rs` from the mupdf-rs repository:
the `DisplayList` wrapper around the display-list API of the MuPDF engine.

The repository file under verification is a thin safe wrapper: every public
operation marshals its arguments and makes a single call into the engine
(`mupdf_*` / `fz_*` C functions reached through `ffi_try!`).  The engine
itself, the `Error` type, `CString::new` and the buffer adapter
`rust_vec_from_ffi_ptr` live outside the provided sources, so they are
modelled from the specification: the engine is an abstract record of pure
functions (the spec asserts every operation is side-effect-free and
repeatable on an immutable recording), and every wrapper definition below is
a direct transcription of the corresponding Rust function body,
parameterised by that engine record.
-/

namespace MupdfRs

/-- Modelled from the spec: error kinds surfaced by this component
(`AllocationError`, `RenderError`, `InvalidArgument`, section 7). -/
inductive ErrorKind where
  | allocationError
  | renderError
  | invalidArgument
  deriving DecidableEq, Repr

/-- Modelled from the spec: a fallible result carries an error kind plus an
engine-supplied diagnostic message. -/
structure Error where
  kind : ErrorKind
  msg : String
  deriving DecidableEq, Repr

/-- Modelled from the spec: geometry value types (Rect) are plain opaque
values, "not specified further"; the wrapper only passes them through. -/
structure Rect where
  tag : Nat
  deriving DecidableEq, Repr

/-- Modelled from the spec: opaque affine-transform value type. -/
structure Matrix where
  tag : Nat
  deriving DecidableEq, Repr

/-- Modelled from the spec: opaque colorspace handle. -/
structure Colorspace where
  tag : Nat
  deriving DecidableEq, Repr

/-- Modelled from the spec: a quadrilateral marking one search hit; opaque
value type from the point of view of the wrapper. -/
structure Quad where
  tag : Nat
  deriving DecidableEq, Repr

/-- Modelled from the spec: one recorded drawing operation, treated by the
core as an opaque, already-validated item. -/
structure DrawOp where
  tag : Nat
  deriving DecidableEq, Repr

/-- Modelled from the spec: a recording is the (opaque) sequence of drawing
operations captured from page content; the display-list handle denotes it. -/
abbrev Recording := List DrawOp

/-- Modelled from the spec: device handles are opaque capability values
(`device.dev` is the raw handle the wrapper forwards). -/
structure Device where
  dev : Nat
  deriving DecidableEq, Repr

/-- Modelled from the spec: a caller-owned cancellation token; the core only
reads its raw pointer (`cookie.inner`), with 0 standing for the null
pointer, i.e. "no cancellation requested". -/
structure Cookie where
  inner : Nat
  deriving DecidableEq, Repr

/-- Raw null pointer value used by `run` for the absent cookie. -/
def nullPtr : Nat := 0

/-- Modelled from the spec: a freshly allocated pixmap: an allocation
identity (fresh handle) plus the rendered pixel contents. -/
structure Pixmap where
  handle : Nat
  pixels : List Nat
  deriving DecidableEq, Repr

/-- Modelled from the spec: a text page is returned to the wrapper as a raw
engine pointer (0 standing for null); the wrapper wraps it unchecked. -/
structure TextPage where
  inner : Nat
  deriving DecidableEq, Repr

/-- Modelled from the spec: the engine-side mutable state the wrapper can
observe through its calls; rendering allocates fresh resources, so the
state carries the next allocation identity. -/
structure EngineState where
  allocNext : Nat
  deriving DecidableEq, Repr

/-- Modelled from the spec: the MuPDF engine functions the wrapper calls
into, as an abstract record.  Per the spec (section 5) every operation is
side-effect-free with respect to the recording and repeatable, so each is a
pure function; `ffi_try!` surfaces engine failures as `Except Error`.
Field by field: `mupdf_new_display_list`, `fz_bound_display_list`,
`mupdf_display_list_to_pixmap` (split into the pure rendering of pixel
contents; allocation identity is threaded via `EngineState`),
`mupdf_display_list_to_text_page` (returns a raw pointer),
`mupdf_display_list_run` (last argument is the raw cookie pointer),
`fz_display_list_is_empty` (returns a C int), `mupdf_search_display_list`
(returns the hit buffer together with the reported hit count). -/
structure Engine where
  new_display_list : Rect → Except Error Recording
  bound : Recording → Rect
  renderPixels : Recording → Matrix → Colorspace → Bool → Except Error (List Nat)
  text_page : Recording → Nat → Except Error Nat
  runList : Recording → Nat → Matrix → Rect → Nat → Except Error Unit
  isEmptyRaw : Recording → Int
  searchList : Recording → String → Nat → Except Error (List Quad × Nat)

/-- True iff the string contains an embedded null byte (the one condition
under which `CString::new` rejects a Rust `&str`). -/
def containsNul (s : String) : Bool :=
  s.data.contains (Char.ofNat 0)

/-- Modelled from the spec: `CString::new` from the Rust standard library as
used by `search`; it fails exactly when the needle holds an embedded null
byte, and the `Error` conversion of the repository gives that failure the
`InvalidArgument` kind (spec section 4.1 and 7). -/
def cstringNew (s : String) : Except Error String :=
  if containsNul s then
    .error ⟨.invalidArgument, "nul byte found in provided data"⟩
  else
    .ok s

/-- Modelled from the spec: `rust_vec_from_ffi_ptr`, the result-buffer
adapter (spec section 4.2): given the foreign buffer and the reported
element count it takes ownership of exactly the first `count` records and
yields an owned sequence. -/
def rust_vec_from_ffi_ptr {α : Type} (buf : List α) (count : Nat) :
    Except Error (List α) :=
  .ok (buf.take count)

/-- The safe display-list wrapper: it owns the engine handle, which denotes
the immutable recording (`inner` field of the Rust struct). -/
structure DisplayList where
  inner : Recording
  deriving DecidableEq

namespace DisplayList

/-- Transcription of `DisplayList::new`: call the engine allocator and wrap
the returned handle into the owning struct only on success
(`ffi_try!(mupdf_new_display_list(..)).map(|inner| Self { inner })`). -/
def new (e : Engine) (media_box : Rect) : Except Error DisplayList :=
  (e.new_display_list media_box).map (fun inner => ⟨inner⟩)

/-- Transcription of `DisplayList::bounds`: a single engine call returning
the rectangle directly (no `Result`); engine state is passed through
untouched because `fz_bound_display_list` only scans the recording. -/
def bounds (e : Engine) (s : EngineState) (dl : DisplayList) :
    Rect × EngineState :=
  ((e.bound dl.inner), s)

/-- Transcription of `DisplayList::to_pixmap`: replay through the
rasterizing device; on success the engine hands back a freshly allocated
pixmap (fresh allocation identity, pixel contents a pure function of the
recording and the parameters), on failure the error is surfaced unchanged. -/
def to_pixmap (e : Engine) (s : EngineState) (dl : DisplayList)
    (ctm : Matrix) (cs : Colorspace) (alpha : Bool) :
    Except Error Pixmap × EngineState :=
  match e.renderPixels dl.inner ctm cs alpha with
  | .ok px => (.ok ⟨s.allocNext, px⟩, ⟨s.allocNext + 1⟩)
  | .error err => (.error err, s)

/-- Transcription of `DisplayList::to_text_page`: one engine call, then
`NonNull::new_unchecked` on the returned pointer: the wrapper stores the
pointer value without any null check. -/
def to_text_page (e : Engine) (dl : DisplayList) (opts : Nat) :
    Except Error TextPage :=
  match e.text_page dl.inner opts with
  | .error err => .error err
  | .ok inner => .ok ⟨inner⟩

/-- Transcription of `DisplayList::run`: replay against a caller device, the
cookie argument fixed to the null pointer. -/
def run (e : Engine) (dl : DisplayList) (device : Device) (ctm : Matrix)
    (area : Rect) : Except Error Unit :=
  e.runList dl.inner device.dev ctm area nullPtr

/-- Transcription of `DisplayList::run_with_cookie`: identical engine call,
passing the cookie pointer of the caller instead of null. -/
def run_with_cookie (e : Engine) (dl : DisplayList) (device : Device)
    (ctm : Matrix) (area : Rect) (cookie : Cookie) : Except Error Unit :=
  e.runList dl.inner device.dev ctm area cookie.inner

/-- Transcription of `DisplayList::is_empty`:
`fz_display_list_is_empty(ctx, inner) > 0`. -/
def is_empty (e : Engine) (dl : DisplayList) : Bool :=
  decide (0 < e.isEmptyRaw dl.inner)

/-- Transcription of `DisplayList::search`: encode the needle as a C string
(failing on an embedded null), substitute the default cap 16 when
`hit_max < 1`, make the engine call, and hand the returned buffer together
with the reported hit count to the result-buffer adapter. -/
def search (e : Engine) (dl : DisplayList) (needle : String)
    (hit_max : Nat) : Except Error (List Quad) :=
  match cstringNew needle with
  | .error err => .error err
  | .ok c_needle =>
    let hit_max := if hit_max < 1 then 16 else hit_max
    match e.searchList dl.inner c_needle hit_max with
    | .error err => .error err
    | .ok (quads, hit_count) => rust_vec_from_ffi_ptr quads hit_count

/-- Variant of `search` used only to state that the cap given by the caller reaches
the engine unchanged: identical body except that no default is substituted
for the cap. -/
def searchRawCap (e : Engine) (dl : DisplayList) (needle : String)
    (hit_max : Nat) : Except Error (List Quad) :=
  match cstringNew needle with
  | .error err => .error err
  | .ok c_needle =>
    match e.searchList dl.inner c_needle hit_max with
    | .error err => .error err
    | .ok (quads, hit_count) => rust_vec_from_ffi_ptr quads hit_count

end DisplayList

/-- Concrete engine used to evaluate the wrapper on closed inputs: the
allocator returns a fresh empty recording, rendering maps the recording to
its operation tags, the text-page call returns the non-null pointer 1,
emptiness reports 1 exactly on the empty recording, and search reports
`min (length of the recording) cap` hits. -/
def testEngine : Engine where
  new_display_list := fun _ => .ok []
  bound := fun _ => ⟨0⟩
  renderPixels := fun rec _ _ _ => .ok (rec.map DrawOp.tag)
  text_page := fun _ _ => .ok 1
  runList := fun _ _ _ _ _ => .ok ()
  isEmptyRaw := fun rec => if rec.isEmpty then 1 else 0
  searchList := fun rec _ cap =>
    .ok (List.replicate (min rec.length cap) ⟨0⟩, min rec.length cap)

/-- Concrete display list whose recording holds twenty operations, so that
`testEngine` reports up to twenty search hits on it. -/
def dl20 : DisplayList := ⟨List.replicate 20 ⟨0⟩⟩

/-- Claim C1: for every needle, calling `search` with a `hit_max` below 1
behaves exactly as calling `search` with a cap of 16, and for every
`hit_max` of at least 1 the cap supplied by the caller is passed to the
engine unchanged (`searchRawCap` is `search` with no default substitution). -/
theorem search_default_cap (e : Engine) (dl : DisplayList) (needle : String)
    (hit_max : Nat) :
    (hit_max < 1 →
      DisplayList.search e dl needle hit_max =
        DisplayList.search e dl needle 16) ∧
    (1 ≤ hit_max →
      DisplayList.search e dl needle hit_max =
        DisplayList.searchRawCap e dl needle hit_max) := by
  constructor
  · intro h
    have h0 : hit_max = 0 := by omega
    subst h0
    rfl
  · intro h
    have h1 : ¬ hit_max < 1 := by omega
    unfold DisplayList.search DisplayList.searchRawCap
    simp only [if_neg h1]

/-- Witness for C1 at concrete inputs. -/
theorem search_default_cap_witness :
    DisplayList.search testEngine ⟨[]⟩ "x" 0 =
      DisplayList.search testEngine ⟨[]⟩ "x" 16 ∧
    DisplayList.search testEngine ⟨[]⟩ "x" 3 =
      DisplayList.searchRawCap testEngine ⟨[]⟩ "x" 3 :=
  ⟨(search_default_cap testEngine ⟨[]⟩ "x" 0).1 (by omega),
   (search_default_cap testEngine ⟨[]⟩ "x" 3).2 (by omega)⟩

/-- Claim C2: for every needle containing an embedded null byte and every
`hit_max`, `search` fails with the `InvalidArgument` error kind; the result
is the same for every engine, so no engine search call is consulted and no
hit record is produced. -/
theorem search_nul_needle (e : Engine) (dl : DisplayList) (needle : String)
    (hit_max : Nat) (h : containsNul needle = true) :
    DisplayList.search e dl needle hit_max =
      .error ⟨.invalidArgument, "nul byte found in provided data"⟩ := by
  unfold DisplayList.search cstringNew
  simp only [h, if_pos]

/-- Witness for C2 at a concrete needle with an embedded null byte. -/
theorem search_nul_needle_witness :
    containsNul "a\x00b" = true ∧
    DisplayList.search testEngine ⟨[]⟩ "a\x00b" 1 =
      .error ⟨.invalidArgument, "nul byte found in provided data"⟩ :=
  ⟨by decide, search_nul_needle testEngine ⟨[]⟩ "a\x00b" 1 (by decide)⟩

/-- Claim C5: `run` and `run_with_cookie` invoke the same engine replay with
identical arguments, `run` passing the null cookie pointer and
`run_with_cookie` passing the pointer held by the token of the caller; both
return the engine result unchanged, so with a null token the two calls are
equivalent. -/
theorem run_refines_run_with_cookie (e : Engine) (dl : DisplayList)
    (device : Device) (ctm : Matrix) (area : Rect) :
    DisplayList.run e dl device ctm area =
      e.runList dl.inner device.dev ctm area nullPtr ∧
    (∀ c : Cookie, DisplayList.run_with_cookie e dl device ctm area c =
      e.runList dl.inner device.dev ctm area c.inner) ∧
    (∀ c : Cookie, c.inner = nullPtr →
      DisplayList.run_with_cookie e dl device ctm area c =
        DisplayList.run e dl device ctm area) := by
  refine ⟨rfl, fun c => rfl, fun c hc => ?_⟩
  unfold DisplayList.run_with_cookie DisplayList.run
  rw [hc]

/-- Witness for C5: at a concrete null token both calls agree. -/
theorem run_refines_run_with_cookie_witness :
    DisplayList.run_with_cookie testEngine ⟨[]⟩ ⟨1⟩ ⟨0⟩ ⟨0⟩ ⟨0⟩ =
      DisplayList.run testEngine ⟨[]⟩ ⟨1⟩ ⟨0⟩ ⟨0⟩ :=
  (run_refines_run_with_cookie testEngine ⟨[]⟩ ⟨1⟩ ⟨0⟩ ⟨0⟩).2.2 ⟨0⟩ rfl

/-- Claim C6: `to_pixmap` is deterministic: two successive calls with
identical transform, colorspace and alpha parameters on the same unmodified
recording produce identical pixel output (the freshly allocated pixmaps may
differ in allocation identity but never in pixel contents). -/
theorem to_pixmap_deterministic (e : Engine) (s : EngineState)
    (dl : DisplayList) (ctm : Matrix) (cs : Colorspace) (alpha : Bool)
    (p1 p2 : Pixmap)
    (h1 : (DisplayList.to_pixmap e s dl ctm cs alpha).1 = .ok p1)
    (h2 : (DisplayList.to_pixmap e
      (DisplayList.to_pixmap e s dl ctm cs alpha).2 dl ctm cs alpha).1 =
        .ok p2) :
    p1.pixels = p2.pixels := by
  unfold DisplayList.to_pixmap at h1 h2
  cases hr : e.renderPixels dl.inner ctm cs alpha <;>
    rw [hr] at h1 h2 <;> simp_all
  subst h1 h2
  rfl

/-- Witness for C6: two successive renderings of the twenty-operation list
yield distinct allocation identities but identical pixels. -/
theorem to_pixmap_deterministic_witness :
    (Pixmap.mk 0 (List.replicate 20 0)).pixels =
      (Pixmap.mk 1 (List.replicate 20 0)).pixels :=
  to_pixmap_deterministic testEngine ⟨0⟩ dl20 ⟨0⟩ ⟨0⟩ true
    ⟨0, List.replicate 20 0⟩ ⟨1, List.replicate 20 0⟩ (by simp [DisplayList.to_pixmap, testEngine, dl20, List.map_replicate]) (by simp [DisplayList.to_pixmap, testEngine, dl20, List.map_replicate])

/-- Claim C8: `bounds` always succeeds: it returns a rectangle directly
(its result type has no error component) and leaves the engine state, and
with it every observable state, unchanged. -/
theorem bounds_total_and_pure (e : Engine) (s : EngineState)
    (dl : DisplayList) :
    ∃ r : Rect, DisplayList.bounds e s dl = (r, s) :=
  ⟨e.bound dl.inner, rfl⟩

/-- Claim C4: on every successful `search` call the returned owned sequence
has length exactly the hit count reported by the engine: the count bounds
the transfer independently of the allocated buffer capacity, and a search
that matches nothing yields the empty sequence rather than an error.  The
hypothesis `hcap` is the spec contract of the buffer protocol: the reported
count never exceeds the true capacity of the buffer. -/
theorem search_len_eq_reported_count (e : Engine) (dl : DisplayList)
    (needle : String) (hit_max : Nat) (buf : List Quad) (count : Nat)
    (hnul : containsNul needle = false)
    (hs : e.searchList dl.inner needle (if hit_max < 1 then 16 else hit_max) =
      .ok (buf, count))
    (hcap : count ≤ buf.length) :
    DisplayList.search e dl needle hit_max = .ok (buf.take count) ∧
    (buf.take count).length = count ∧
    (count = 0 → DisplayList.search e dl needle hit_max = .ok []) := by
  have hrun : DisplayList.search e dl needle hit_max = .ok (buf.take count) := by
    have hs2 : e.searchList dl.inner needle
        (if hit_max = 0 then 16 else hit_max) = .ok (buf, count) := by
      simpa [Nat.lt_one_iff] using hs
    unfold DisplayList.search cstringNew
    simp [hnul, hs2, rust_vec_from_ffi_ptr]
  refine ⟨hrun, ?_, ?_⟩
  · simp [List.length_take]
    omega
  · intro h0
    subst h0
    simpa using hrun

/-- Witness for C4: a search with no match on the empty recording returns
the empty sequence with reported count 0. -/
theorem search_len_eq_reported_count_witness :
    DisplayList.search testEngine ⟨[]⟩ "x" 5 = .ok ([] : List Quad) ∧
    (([] : List Quad).take 0).length = 0 ∧
    (0 = 0 → DisplayList.search testEngine ⟨[]⟩ "x" 5 = .ok []) :=
  search_len_eq_reported_count testEngine ⟨[]⟩ "x" 5 [] 0 (by decide)
    (by simp [testEngine]) (by simp)

/-- Claim C9: `new` either wraps the freshly allocated engine recording into
an owning display list, or fails with the allocation error kind when the
engine cannot allocate; the handle is wrapped only after the engine call
succeeded, so no partially constructed object is observable on failure.
The hypothesis is the spec contract that engine allocation failures carry
the allocation kind. -/
theorem new_ok_or_alloc_error (e : Engine) (media_box : Rect)
    (hkind : ∀ err, e.new_display_list media_box = .error err →
      err.kind = .allocationError) :
    (∀ rec, e.new_display_list media_box = .ok rec →
      DisplayList.new e media_box = .ok ⟨rec⟩) ∧
    (∀ err, DisplayList.new e media_box = .error err →
      e.new_display_list media_box = .error err ∧
        err.kind = .allocationError) := by
  constructor
  · intro rec hrec
    unfold DisplayList.new
    rw [hrec]
    rfl
  · intro err herr
    unfold DisplayList.new at herr
    cases halloc : e.new_display_list media_box with
    | ok rec => rw [halloc] at herr; simp [Except.map] at herr
    | error err2 =>
      rw [halloc] at herr
      simp [Except.map] at herr
      subst herr
      exact ⟨rfl, hkind err2 halloc⟩

/-- Witness for C9: construction through the test engine wraps exactly the
fresh empty recording. -/
theorem new_ok_or_alloc_error_witness :
    DisplayList.new testEngine ⟨0⟩ = .ok ⟨[]⟩ :=
  (new_ok_or_alloc_error testEngine ⟨0⟩
    (fun err h => by simp [testEngine] at h)).1 [] rfl

/-- Claim C10: `to_text_page` converts the engine success pointer to a
handle without a null check; under the precondition that a successful
engine text-page call never yields the null pointer, it returns `Ok`
wrapping exactly that pointer and the unchecked non-null construction is
valid (the stored pointer is non-null). -/
theorem to_text_page_nonnull (e : Engine) (dl : DisplayList) (opts : Nat)
    (p : Nat)
    (hp : e.text_page dl.inner opts = .ok p)
    (hnn : ∀ q, e.text_page dl.inner opts = .ok q → 0 < q) :
    DisplayList.to_text_page e dl opts = .ok ⟨p⟩ ∧ 0 < p := by
  refine ⟨?_, hnn p hp⟩
  unfold DisplayList.to_text_page
  rw [hp]

/-- Witness for C10: the test engine returns pointer 1, which is wrapped
unchanged and is non-null. -/
theorem to_text_page_nonnull_witness :
    DisplayList.to_text_page testEngine ⟨[]⟩ 0 = .ok ⟨1⟩ ∧ 0 < 1 :=
  to_text_page_nonnull testEngine ⟨[]⟩ 0 1 rfl
    (fun q h => by simp [testEngine] at h; omega)

/-- Counterexample to claim C3 as stated: with `hit_max = 0` the wrapper
substitutes the default cap 16, so on a recording with twenty matches the
engine reports 16 hits and the call returns 16 quadrilaterals, strictly
more than `max 0 1 = 1`. -/
theorem search_hit_cap_counterexample :
    DisplayList.search testEngine dl20 "x" 0 =
      .ok (List.replicate 16 (Quad.mk 0)) ∧
    max 0 1 < (List.replicate 16 (Quad.mk 0)).length := by
  constructor
  · simp [DisplayList.search, testEngine, dl20, cstringNew, containsNul,
      rust_vec_from_ffi_ptr]
  · simp

/-- Claim C3 as amended: provided the engine honors the requested cap (the
reported count never exceeds it, per the spec contract of `search`), a
successful `search(needle, n)` returns at most `n` hits when `n` is at
least 1, and at most 16 hits when `n` is below 1. -/
theorem search_hit_cap (e : Engine) (dl : DisplayList) (needle : String)
    (n : Nat) (hits : List Quad)
    (hcap : ∀ nd cap buf count,
      e.searchList dl.inner nd cap = .ok (buf, count) → count ≤ cap)
    (hok : DisplayList.search e dl needle n = .ok hits) :
    hits.length ≤ if n < 1 then 16 else n := by
  unfold DisplayList.search at hok
  cases hcs : cstringNew needle with
  | error err => rw [hcs] at hok; simp at hok
  | ok c =>
    rw [hcs] at hok
    simp only at hok
    cases hsr : e.searchList dl.inner c (if n < 1 then 16 else n) with
    | error err => rw [hsr] at hok; simp at hok
    | ok pr =>
      obtain ⟨buf, count⟩ := pr
      rw [hsr] at hok
      simp only [rust_vec_from_ffi_ptr, Except.ok.injEq] at hok
      have hle : count ≤ if n < 1 then 16 else n := hcap _ _ _ _ hsr
      subst hok
      simp only [List.length_take]
      omega

/-- Witness for C3 as amended: a call with cap 3 on the twenty-operation
recording returns three hits, within the bound. -/
theorem search_hit_cap_witness :
    (List.replicate 3 (Quad.mk 0)).length ≤ if (3 : Nat) < 1 then 16 else 3 :=
  search_hit_cap testEngine dl20 "x" 3 (List.replicate 3 (Quad.mk 0))
    (by
      intro nd cap buf count h
      simp [testEngine] at h
      omega)
    (by simp [DisplayList.search, testEngine, dl20, cstringNew, containsNul,
      rust_vec_from_ffi_ptr])

/-- Counterexample to claim C7 as stated: on a display list constructed
empty, `search` with the needle consisting of one null byte does not
succeed with an empty sequence: it fails with `InvalidArgument` (embedded
null bytes are rejected before the engine is consulted, whatever the list
contents). -/
theorem empty_list_search_counterexample :
    DisplayList.new testEngine ⟨0⟩ = .ok ⟨[]⟩ ∧
    DisplayList.is_empty testEngine ⟨[]⟩ = true ∧
    DisplayList.search testEngine ⟨[]⟩ "\x00" 1 =
      .error ⟨.invalidArgument, "nul byte found in provided data"⟩ := by
  refine ⟨rfl, ?_, ?_⟩
  · simp [DisplayList.is_empty, testEngine]
  · simp [DisplayList.search, cstringNew, containsNul]

/-- Claim C7 as amended: for every display list constructed empty via `new`
and not yet populated, `is_empty` returns true, and `search` with any
needle free of embedded null bytes (and any `hit_max`) succeeds with an
empty sequence of hits.  The hypotheses are the spec contracts of the
engine: a fresh allocation is an empty recording, the emptiness query is
positive on the empty recording, and search over the empty recording
reports zero hits. -/
theorem empty_list_props (e : Engine) (media_box : Rect) (dl : DisplayList)
    (needle : String) (hit_max : Nat)
    (hfresh : ∀ r rec, e.new_display_list r = .ok rec → rec = [])
    (hnew : DisplayList.new e media_box = .ok dl)
    (hempty_raw : 0 < e.isEmptyRaw [])
    (hsearch_empty : ∀ nd cap, ∃ buf, e.searchList [] nd cap = .ok (buf, 0))
    (hnul : containsNul needle = false) :
    DisplayList.is_empty e dl = true ∧
    DisplayList.search e dl needle hit_max = .ok [] := by
  have hrec : dl.inner = [] := by
    unfold DisplayList.new at hnew
    cases halloc : e.new_display_list media_box with
    | error err => rw [halloc] at hnew; simp [Except.map] at hnew
    | ok rec =>
      rw [halloc] at hnew
      simp only [Except.map, Except.ok.injEq] at hnew
      rw [← hnew]
      exact hfresh _ _ halloc
  have hcs : cstringNew needle = .ok needle := by simp [cstringNew, hnul]
  constructor
  · unfold DisplayList.is_empty
    rw [hrec]
    simpa using hempty_raw
  · obtain ⟨buf, hb⟩ :=
      hsearch_empty needle (if hit_max < 1 then 16 else hit_max)
    unfold DisplayList.search
    rw [hcs]
    simp only
    rw [hrec, hb]
    simp [rust_vec_from_ffi_ptr]

/-- Witness for C7 as amended at the test engine and a concrete needle. -/
theorem empty_list_props_witness :
    DisplayList.is_empty testEngine ⟨[]⟩ = true ∧
    DisplayList.search testEngine ⟨[]⟩ "x" 1 = .ok [] :=
  empty_list_props testEngine ⟨0⟩ ⟨[]⟩ "x" 1
    (fun r rec h => by
      have h2 : (Except.ok [] : Except Error Recording) = .ok rec := h
      exact (Except.ok.inj h2).symm)
    rfl
    (by simp [testEngine])
    (fun nd cap => ⟨[], by simp [testEngine]⟩)
    (by decide)

end MupdfRs
